import Mathlib

/-!
Shallow embedding of `src/main.py`, a FastAPI + SQLModel CRUD service over a
SQLite store with four tables (product, customer, order, orderitem).

Modelling conventions:
* The relational store is a `DB` record of four lists, kept in insertion
  order (SQLite returns rows in rowid/insertion order for the plain
  `select(...)` queries used throughout the source).
* Each HTTP handler becomes a function on `DB`; handlers that can raise
  `HTTPException` (or hit a database integrity error) return `Except`.
* Python `int` becomes `Int`.  Python `float` fields (`price`,
  `total_amount`, `price_per_unit`, `total_price`) are carried verbatim by
  every handler — no arithmetic is ever performed on them — so they are
  modelled with the exact numeric type `Rat`.
* `Optional[int]` / defaulted-to-`None` fields become `Option`.
* `datetime` (`order_date`) is never inspected by any handler; it is
  modelled as an `Int` timestamp.
* `select(T).where(cond).first()` becomes `List.find?`; in-place
  `setattr` mutation of the row found by `.first()` becomes `updateFirst`;
  `db.delete` of that row becomes `removeFirst`.
* A successful `INSERT` with an omitted (`None`) single-column integer
  primary key lets SQLite assign `max existing id + 1`; this is `freshId`.
  An explicit id that collides with an existing row violates the primary
  key and surfaces as an unhandled `IntegrityError` (`ApiError.integrityError`).
-/

namespace OrderApi

/-- `HTTPException(status_code, detail)` raised by the handlers, plus the
unhandled database integrity error (a duplicate primary key on insert). -/
inductive ApiError where
  | http (status_code : Nat) (detail : String)
  | integrityError
  deriving DecidableEq, Repr

/-- `class Product` (src/main.py lines 6-11): single-column integer primary
key `id`, `name`, `price`, `description` defaulting to `None`.  The
`stock_quantity` attribute is a relationship (not a column) and is derived
from the orderitem table, so it is not a field of the row. -/
structure Product where
  id : Option Int := none
  name : String
  price : Rat
  description : Option String := none
  deriving DecidableEq, Repr

/-- `class Customer` (src/main.py lines 13-22); `orders` is a relationship,
not a column. -/
structure Customer where
  id : Option Int := none
  name : String
  surname : String
  email : String
  username : String
  password : String
  address : Option String := none
  phone_number : Option String := none
  deriving DecidableEq, Repr

/-- `class Order` (src/main.py lines 24-30): columns `id`, `customer_id`,
`order_date`, `total_amount`.  `customer` and `order_items` are
relationships, not columns; in particular the table has no
`total_quantity` column. -/
structure Order where
  id : Option Int := none
  customer_id : Option Int := none
  order_date : Int := 0
  total_amount : Rat
  deriving DecidableEq, Repr

/-- `class OrderItem` (src/main.py lines 32-40): columns `id`, `quantity`,
`price_per_unit`, `total_price`, `order_id`, `product_id` (the latter two
default to `None`); `order` and `product` are relationships. -/
structure OrderItem where
  id : Option Int := none
  quantity : Int
  price_per_unit : Rat
  total_price : Rat
  order_id : Option Int := none
  product_id : Option Int := none
  deriving DecidableEq, Repr

/-- The relational store: the four tables, each in insertion order. -/
structure DB where
  products : List Product := []
  customers : List Customer := []
  orders : List Order := []
  items : List OrderItem := []
  deriving DecidableEq, Repr

/-! ### Generic list operations mirroring row-level SQL effects -/

/-- Apply `f` to the first element satisfying `p` (the row returned by
`.first()`, mutated in place by `setattr`), leaving all others unchanged. -/
def updateFirst (p : α → Bool) (f : α → α) : List α → List α
  | [] => []
  | x :: xs => if p x then f x :: xs else x :: updateFirst p f xs

/-- Remove the first element satisfying `p` (the row returned by
`.first()`, then passed to `db.delete`). -/
def removeFirst (p : α → Bool) : List α → List α
  | [] => []
  | x :: xs => if p x then xs else x :: removeFirst p xs

/-- SQLite's id assignment for an omitted single-column integer primary
key: one more than the largest id present (1 on an empty table). -/
def freshId (ids : List Int) : Int := ids.foldl max 0 + 1

/-! ### Product endpoints -/

/-- The integer ids present in the product table. -/
def productIds (db : DB) : List Int := db.products.filterMap (fun p => p.id)

/-- `GET /products/` (src/main.py lines 61-64):
`select(Product).offset(skip).limit(limit)`.  The query parameters default
to `skip = 0`, `limit = 10`. -/
def get_products (skip : Nat) (limit : Nat) (db : DB) : List Product :=
  (db.products.drop skip).take limit

/-- `POST /products/` (src/main.py lines 66-71): insert the payload and
return the refreshed row.  A payload with an explicit id colliding with an
existing row raises `IntegrityError`; an omitted id is assigned by SQLite. -/
def create_product (product : Product) (db : DB) :
    Except ApiError (Product × DB) :=
  match product.id with
  | some i =>
    if db.products.any (fun q => q.id == some i) then
      .error .integrityError
    else
      .ok (product, { db with products := db.products ++ [product] })
  | none =>
    let stored := { product with id := some (freshId (productIds db)) }
    .ok (stored, { db with products := db.products ++ [stored] })

/-- `GET /products/{product_id}` (src/main.py lines 73-78). -/
def get_product (product_id : Int) (db : DB) : Except ApiError Product :=
  match db.products.find? (fun p => p.id == some product_id) with
  | none => .error (.http 404 "Product not found")
  | some p => .ok p

/-- The overwrite performed by `PUT /products/{product_id}`:
`updated_product.dict(exclude={"id"})` yields every column except `id`,
and each is written onto the stored row by `setattr`. -/
def applyProductUpdate (upd : Product) (p : Product) : Product :=
  { p with name := upd.name, price := upd.price,
           description := upd.description }

/-- `PUT /products/{product_id}` (src/main.py lines 80-91): 404 when
absent, else overwrite every non-id column of the stored row with the
payload's values and return the refreshed row. -/
def update_product (product_id : Int) (updated_product : Product) (db : DB) :
    Except ApiError (Product × DB) :=
  match db.products.find? (fun p => p.id == some product_id) with
  | none => .error (.http 404 "Product not found")
  | some p =>
    let table := updateFirst (fun q => q.id == some product_id)
      (applyProductUpdate updated_product) db.products
    .ok (applyProductUpdate updated_product p, { db with products := table })

/-! ### Customer endpoints -/

/-- The integer ids present in the customer table. -/
def customerIds (db : DB) : List Int := db.customers.filterMap (fun c => c.id)

/-- `POST /customers/` (src/main.py lines 108-113): insert the payload and
return the refreshed row, with the same id-assignment discipline as
`create_product`. -/
def create_customer (customer : Customer) (db : DB) :
    Except ApiError (Customer × DB) :=
  match customer.id with
  | some i =>
    if db.customers.any (fun c => c.id == some i) then
      .error .integrityError
    else
      .ok (customer, { db with customers := db.customers ++ [customer] })
  | none =>
    let stored := { customer with id := some (freshId (customerIds db)) }
    .ok (stored, { db with customers := db.customers ++ [stored] })

/-- `GET /customers/{customer_id}` (src/main.py lines 115-120). -/
def get_customer (customer_id : Int) (db : DB) : Except ApiError Customer :=
  match db.customers.find? (fun c => c.id == some customer_id) with
  | none => .error (.http 404 "Customer not found")
  | some c => .ok c

/-- The `customer.orders` relationship (src/main.py line 22): the orders
whose `customer_id` column equals the customer's id.  SQL equality on a
`NULL` id never holds, so a `NULL`-id customer is related to no order. -/
def customerOrders (db : DB) (c : Customer) : List Order :=
  db.orders.filter (fun o => c.id.isSome && o.customer_id == c.id)

/-- `GET /customers/{customer_id}/orders/` (src/main.py lines 129-135):
404 when the customer is absent, else `customer.orders`. -/
def get_customer_orders (customer_id : Int) (db : DB) :
    Except ApiError (List Order) :=
  match db.customers.find? (fun c => c.id == some customer_id) with
  | none => .error (.http 404 "Customer not found")
  | some c => .ok (customerOrders db c)

/-! ### Order and order-item endpoints -/

/-- `GET /orders/{order_id}` (src/main.py lines 137-142). -/
def get_order (order_id : Int) (db : DB) : Except ApiError Order :=
  match db.orders.find? (fun o => o.id == some order_id) with
  | none => .error (.http 404 "Order not found")
  | some o => .ok o

/-- The `order.order_items` relationship (src/main.py line 30): the items
whose `order_id` column equals the order's id; a `NULL`-id order is
related to no item. -/
def orderItems (db : DB) (o : Order) : List OrderItem :=
  db.items.filter (fun it => o.id.isSome && it.order_id == o.id)

/-- The orderitem table's composite primary key `(id, order_id,
product_id)` (src/main.py lines 33, 37, 38). -/
def itemPk (it : OrderItem) : Option Int × Option Int × Option Int :=
  (it.id, it.order_id, it.product_id)

/-- SQL primary-key collision test for the composite orderitem key: two
keys collide only when they agree componentwise and no component is
`NULL` (SQLite accepts duplicate keys containing `NULL`). -/
def pkConflict (a b : Option Int × Option Int × Option Int) : Bool :=
  match a, b with
  | (some i, some o, some p), (some j, some q, some r) =>
    i == j && o == q && p == r
  | _, _ => false

/-- `POST /orders/{order_id}/items/` (src/main.py lines 144-155): 404 when
the order is absent; otherwise the aggregate quantity of the order's
current items is computed and assigned to `order.total_quantity` — an
attribute that is not a mapped column of `Order` (lines 24-30), so the
assignment never reaches the orders table and is modelled as the dead
binding `_total_quantity` — then the item's `order_id` is set from the
order found by the path parameter and the item is inserted. -/
def add_item_to_order (order_id : Int) (item : OrderItem) (db : DB) :
    Except ApiError (OrderItem × DB) :=
  match db.orders.find? (fun o => o.id == some order_id) with
  | none => .error (.http 404 "Order not found")
  | some order =>
    let _total_quantity : Int :=
      ((orderItems db order).map (fun oi => oi.quantity)).sum
    let stored := { item with order_id := order.id }
    if db.items.any (fun ex => pkConflict (itemPk ex) (itemPk stored)) then
      .error .integrityError
    else
      .ok (stored, { db with items := db.items ++ [stored] })

/-- `GET /orders/{order_id}/items/` (src/main.py lines 158-164): 404 when
the order is absent, else `order.order_items`. -/
def get_order_items (order_id : Int) (db : DB) :
    Except ApiError (List OrderItem) :=
  match db.orders.find? (fun o => o.id == some order_id) with
  | none => .error (.http 404 "Order not found")
  | some o => .ok (orderItems db o)

/-- The row predicate of
`select(OrderItem).where(OrderItem.id == item_id, OrderItem.order_id == order_id)`
(src/main.py lines 172 and 189). -/
def itemMatches (order_id item_id : Int) (it : OrderItem) : Bool :=
  it.id == some item_id && it.order_id == some order_id

/-- The overwrite performed by `PUT /orders/{order_id}/items/{item_id}`:
`updated_item.dict(exclude={"id", "order_id", "product_id"})` yields the
columns `quantity`, `price_per_unit`, `total_price`, each written onto the
stored row by `setattr`. -/
def applyItemUpdate (upd : OrderItem) (it : OrderItem) : OrderItem :=
  { it with quantity := upd.quantity, price_per_unit := upd.price_per_unit,
            total_price := upd.total_price }

/-- `PUT /orders/{order_id}/items/{item_id}` (src/main.py lines 166-181):
404 "Order not found" when the order is absent, 404 "Order item not found"
when no item has the given id scoped to the given order, else overwrite
the non-key columns of the stored item and return the refreshed row. -/
def update_order_item (order_id item_id : Int) (updated_item : OrderItem)
    (db : DB) : Except ApiError (OrderItem × DB) :=
  match db.orders.find? (fun o => o.id == some order_id) with
  | none => .error (.http 404 "Order not found")
  | some _ =>
    match db.items.find? (itemMatches order_id item_id) with
    | none => .error (.http 404 "Order item not found")
    | some it =>
      let table := updateFirst (itemMatches order_id item_id)
        (applyItemUpdate updated_item) db.items
      .ok (applyItemUpdate updated_item it, { db with items := table })

/-- `DELETE /orders/{order_id}/items/{item_id}` (src/main.py lines
183-195): the same two 404 cases as `update_order_item`, else delete the
stored item and return it. -/
def delete_order_item (order_id item_id : Int) (db : DB) :
    Except ApiError (OrderItem × DB) :=
  match db.orders.find? (fun o => o.id == some order_id) with
  | none => .error (.http 404 "Order not found")
  | some _ =>
    match db.items.find? (itemMatches order_id item_id) with
    | none => .error (.http 404 "Order item not found")
    | some it =>
      let table := removeFirst (itemMatches order_id item_id) db.items
      .ok (it, { db with items := table })

/-- The product table after `update_product` rewrites the first row with
the given id (abbreviation used to state the update theorems). -/
def productTableAfterUpdate (pid : Int) (upd : Product) (db : DB) :
    List Product :=
  updateFirst (fun q => q.id == some pid) (applyProductUpdate upd)
    db.products

/-- The orderitem table after `update_order_item` rewrites the first row
matching the scoped lookup. -/
def itemTableAfterUpdate (oid iid : Int) (upd : OrderItem) (db : DB) :
    List OrderItem :=
  updateFirst (itemMatches oid iid) (applyItemUpdate upd) db.items

/-! ### Concrete store fixtures used by the witness theorems -/

deriving instance DecidableEq for Except

/-- A product row with id 1, as stored. -/
def prod1 : Product :=
  { id := some 1, name := "widget", price := 5, description := some "w" }

/-- A customer row with id 1, as stored. -/
def cust1 : Customer :=
  { id := some 1, name := "A", surname := "B", email := "a@b.com",
    username := "ab", password := "x" }

/-- An order row with id 1 owned by customer 1. -/
def order1 : Order :=
  { id := some 1, customer_id := some 1, total_amount := 20 }

/-- A second order row with id 2 owned by customer 1. -/
def order2 : Order :=
  { id := some 2, customer_id := some 1, total_amount := 7 }

/-- An item row with id 1 attached to order 1. -/
def item1 : OrderItem :=
  { id := some 1, quantity := 2, price_per_unit := 10, total_price := 20,
    order_id := some 1, product_id := some 1 }

/-- A populated store: one product, one customer, two orders, one item. -/
def storeDB : DB :=
  { products := [prod1], customers := [cust1], orders := [order1, order2],
    items := [item1] }

/-- A product payload with no `id` and no `description` supplied. -/
def freshProduct : Product := { name := "gadget", price := 3 }

/-- A customer payload with no `id` supplied, as in the spec's example. -/
def freshCustomer : Customer :=
  { name := "A", surname := "B", email := "a@b.com", username := "ab",
    password := "x" }

/-- An item payload carrying a stale `order_id` of 999 in its body. -/
def strayItem : OrderItem :=
  { id := some 2, quantity := 1, price_per_unit := 4, total_price := 4,
    order_id := some 999, product_id := some 1 }

/-! ### Helper lemmas -/

theorem le_foldl_max (l : List Int) : ∀ a : Int, a ≤ l.foldl max a := by
  induction l with
  | nil => intro a; exact le_refl a
  | cons b t ih =>
    intro a
    exact le_trans (le_max_left a b) (ih (max a b))

theorem mem_le_foldl_max {x : Int} (l : List Int) (hx : x ∈ l) :
    ∀ a : Int, x ≤ l.foldl max a := by
  induction l with
  | nil => cases hx
  | cons b t ih =>
    intro a
    rcases List.mem_cons.mp hx with h | h
    · subst h
      exact le_trans (le_max_right a x) (le_foldl_max t (max a x))
    · exact ih h (max a b)

theorem lt_freshId {x : Int} {ids : List Int} (h : x ∈ ids) :
    x < freshId ids := by
  have := mem_le_foldl_max ids h 0
  unfold freshId
  omega

theorem find?_append_fresh {α : Type} (pr : α → Bool) (l : List α) (y : α)
    (h : ∀ x ∈ l, pr x = false) (hy : pr y = true) :
    (l ++ [y]).find? pr = some y := by
  induction l with
  | nil => simp [List.find?, hy]
  | cons b t ih =>
    have hb : pr b = false := h b (List.mem_cons_self b t)
    simp only [List.cons_append, List.find?, hb]
    exact ih (fun x hx => h x (List.mem_cons_of_mem b hx))

theorem not_mem_removeFirst {α β : Type} (k : α → β) (pred : α → Bool) :
    ∀ (l : List α) (x : α), l.find? pred = some x →
      l.Pairwise (fun a b => k a ≠ k b) → x ∉ removeFirst pred l := by
  intro l
  induction l with
  | nil => intro x hf; simp [List.find?] at hf
  | cons b t ih =>
    intro x hf hp hmem
    rcases List.pairwise_cons.mp hp with ⟨hb, ht⟩
    by_cases hpb : pred b
    · rw [List.find?_cons_of_pos _ hpb] at hf
      rw [show removeFirst pred (b :: t) = t from by simp [removeFirst, hpb]]
        at hmem
      cases hf
      exact hb _ hmem rfl
    · rw [List.find?_cons_of_neg _ (by simpa using hpb)] at hf
      rw [show removeFirst pred (b :: t) = b :: removeFirst pred t from by
        simp [removeFirst, hpb]] at hmem
      rcases List.mem_cons.mp hmem with h | h
      · subst h
        exact hpb (List.find?_some hf)
      · exact ih x hf ht h

/-! ### Claims -/

/-- C1: for every product payload, a successful `POST /products/` followed
by `GET /products/{id}` at the id returned by create yields exactly the
stored row, whose `name`, `price` and `description` are the values the
create stored from the payload. -/
theorem C1_create_then_get (db : DB) (p stored : Product) (db' : DB)
    (i : Int) (hc : create_product p db = .ok (stored, db'))
    (hi : stored.id = some i) :
    get_product i db' = .ok stored ∧ stored.name = p.name ∧
      stored.price = p.price ∧ stored.description = p.description := by
  unfold create_product at hc
  have key : db'.products = db.products ++ [stored] ∧
      (∀ x ∈ db.products, (x.id == some i) = false) ∧
      stored.name = p.name ∧ stored.price = p.price ∧
      stored.description = p.description := by
    cases hp : p.id with
    | some j =>
      rw [hp] at hc
      cases hconf : db.products.any (fun q => q.id == some j) with
      | true => simp [hconf] at hc
      | false =>
        simp only [hconf, Bool.false_eq_true, if_false, Except.ok.injEq,
          Prod.mk.injEq] at hc
        obtain ⟨h1, h2⟩ := hc
        subst h1
        have hij : j = i := by
          rw [hp] at hi; exact Option.some.inj hi
        subst hij
        refine ⟨by rw [← h2], ?_, rfl, rfl, rfl⟩
        intro x hx
        exact Bool.eq_false_iff.mpr (List.any_eq_false.mp hconf x hx)
    | none =>
      rw [hp] at hc
      simp only [Except.ok.injEq, Prod.mk.injEq] at hc
      obtain ⟨h1, h2⟩ := hc
      have hfresh : i = freshId (productIds db) := by
        rw [← h1] at hi
        simpa using hi.symm
      refine ⟨by rw [← h2, ← h1], ?_, by rw [← h1], by rw [← h1],
        by rw [← h1]⟩
      intro x hx
      cases hxid : x.id with
      | none => rfl
      | some y =>
        have hy : y ∈ productIds db :=
          List.mem_filterMap.mpr ⟨x, hx, hxid⟩
        have : y < freshId (productIds db) := lt_freshId hy
        have hne : y ≠ i := by rw [hfresh]; exact ne_of_lt this
        simp [hne]
  refine ⟨?_, key.2.2.1, key.2.2.2.1, key.2.2.2.2⟩
  unfold get_product
  rw [key.1, find?_append_fresh _ _ _ key.2.1 (by simp [hi])]

/-- Witness for C1 at a concrete payload on the empty store. -/
theorem C1_create_then_get_witness :
    get_product 1 { products := [{ freshProduct with id := some 1 }] } =
      .ok { freshProduct with id := some 1 } ∧
    ({ freshProduct with id := some 1 } : Product).name =
      freshProduct.name ∧
    ({ freshProduct with id := some 1 } : Product).price =
      freshProduct.price ∧
    ({ freshProduct with id := some 1 } : Product).description =
      freshProduct.description :=
  C1_create_then_get {} freshProduct { freshProduct with id := some 1 }
    { products := [{ freshProduct with id := some 1 }] } 1 (by rfl) rfl

/-- C2: fetching a Product, Customer or Order by an id with no matching
row yields HTTP 404 with the documented fixed message, and yields the
stored row when a matching row exists; for an OrderItem, the lookup scoped
to an existing order yields 404 "Order item not found" when no matching
item exists, and the stored item (returned by the delete endpoint) when it
does. -/
theorem C2_fetch_by_id (db : DB) (pid cid oid iid : Int) (upd : OrderItem) :
    (db.products.find? (fun p => p.id == some pid) = none →
      get_product pid db = .error (.http 404 "Product not found")) ∧
    (∀ p, db.products.find? (fun p => p.id == some pid) = some p →
      get_product pid db = .ok p) ∧
    (db.customers.find? (fun c => c.id == some cid) = none →
      get_customer cid db = .error (.http 404 "Customer not found")) ∧
    (∀ c, db.customers.find? (fun c => c.id == some cid) = some c →
      get_customer cid db = .ok c) ∧
    (db.orders.find? (fun o => o.id == some oid) = none →
      get_order oid db = .error (.http 404 "Order not found")) ∧
    (∀ o, db.orders.find? (fun o => o.id == some oid) = some o →
      get_order oid db = .ok o) ∧
    (∀ o, db.orders.find? (fun o => o.id == some oid) = some o →
      db.items.find? (itemMatches oid iid) = none →
      update_order_item oid iid upd db =
        .error (.http 404 "Order item not found")) ∧
    (∀ o it, db.orders.find? (fun o => o.id == some oid) = some o →
      db.items.find? (itemMatches oid iid) = some it →
      ∃ db', delete_order_item oid iid db = .ok (it, db')) := by
  refine ⟨?_, ?_, ?_, ?_, ?_, ?_, ?_, ?_⟩
  · intro h; unfold get_product; rw [h]
  · intro p h; unfold get_product; rw [h]
  · intro h; unfold get_customer; rw [h]
  · intro c h; unfold get_customer; rw [h]
  · intro h; unfold get_order; rw [h]
  · intro o h; unfold get_order; rw [h]
  · intro o ho hit; unfold update_order_item; rw [ho, hit]
  · intro o it ho hit
    refine ⟨{ db with items := removeFirst (itemMatches oid iid) db.items }, ?_⟩
    unfold delete_order_item
    rw [ho, hit]

/-- Witness for C2: the four documented 404 messages at absent ids, and
all four success lookups, on the populated store. -/
theorem C2_fetch_by_id_witness :
    get_product 9 storeDB = .error (.http 404 "Product not found") ∧
    get_customer 9 storeDB = .error (.http 404 "Customer not found") ∧
    get_order 9 storeDB = .error (.http 404 "Order not found") ∧
    update_order_item 1 9 item1 storeDB =
      .error (.http 404 "Order item not found") ∧
    get_product 1 storeDB = .ok prod1 ∧
    get_customer 1 storeDB = .ok cust1 ∧
    get_order 1 storeDB = .ok order1 ∧
    ∃ db', delete_order_item 1 1 storeDB = .ok (item1, db') := by
  have ha := C2_fetch_by_id storeDB 9 9 9 9 item1
  have hb := C2_fetch_by_id storeDB 1 1 1 1 item1
  have hm := C2_fetch_by_id storeDB 1 1 1 9 item1
  exact ⟨ha.1 (by rfl), ha.2.2.1 (by rfl), ha.2.2.2.2.1 (by rfl),
    hm.2.2.2.2.2.2.1 order1 (by rfl) (by rfl),
    hb.2.1 prod1 (by rfl), hb.2.2.2.1 cust1 (by rfl),
    hb.2.2.2.2.2.1 order1 (by rfl),
    hb.2.2.2.2.2.2.2 order1 item1 (by rfl) (by rfl)⟩

/-- C3: `PUT /products/{product_id}` is 404 "Product not found" when the
id is absent; when present it overwrites every column except the identity
with the payload's values (so the stored row's name, price and description
become exactly the payload's, while its id is kept), and a payload literal
that omits `description` (or `id`) carries the type default `none`, which
is therefore what gets written. -/
theorem C3_update_product_overwrites (db : DB) (pid : Int) (upd : Product) :
    (db.products.find? (fun p => p.id == some pid) = none →
      update_product pid upd db = .error (.http 404 "Product not found")) ∧
    (∀ p, db.products.find? (fun p => p.id == some pid) = some p →
      update_product pid upd db =
        .ok (applyProductUpdate upd p,
          { db with products := productTableAfterUpdate pid upd db }) ∧
      (applyProductUpdate upd p).id = p.id ∧
      (applyProductUpdate upd p).name = upd.name ∧
      (applyProductUpdate upd p).price = upd.price ∧
      (applyProductUpdate upd p).description = upd.description) ∧
    (∀ (n : String) (pr : Rat),
      ({ name := n, price := pr } : Product).description = none ∧
      ({ name := n, price := pr } : Product).id = none) := by
  refine ⟨?_, ?_, fun n pr => ⟨rfl, rfl⟩⟩
  · intro h; unfold update_product; rw [h]
  · intro p h
    refine ⟨?_, rfl, rfl, rfl, rfl⟩
    unfold update_product
    rw [h]
    rfl

/-- Witness for C3: updating product 1 with a payload that omits
`description` keeps the id and resets the stored description to `none`. -/
theorem C3_update_product_overwrites_witness :
    update_product 1 freshProduct storeDB =
      .ok (applyProductUpdate freshProduct prod1,
        { storeDB with products := productTableAfterUpdate 1 freshProduct storeDB }) ∧
    (applyProductUpdate freshProduct prod1).id = prod1.id ∧
    (applyProductUpdate freshProduct prod1).name = freshProduct.name ∧
    (applyProductUpdate freshProduct prod1).price = freshProduct.price ∧
    (applyProductUpdate freshProduct prod1).description =
      freshProduct.description ∧
    freshProduct.description = none := by
  have h := (C3_update_product_overwrites storeDB 1 freshProduct).2.1
    prod1 (by rfl)
  exact ⟨h.1, h.2.1, h.2.2.1, h.2.2.2.1, h.2.2.2.2, rfl⟩

/-- C4: `POST /orders/{order_id}/items/` is 404 "Order not found" when the
order id is absent; on success the stored item appears in a subsequent
`GET /orders/{order_id}/items/` for that order, and never in the item list
of any other order id. -/
theorem C4_add_item_scoped (db : DB) (oid : Int) (item it' : OrderItem)
    (db' : DB) :
    (db.orders.find? (fun o => o.id == some oid) = none →
      add_item_to_order oid item db = .error (.http 404 "Order not found")) ∧
    (add_item_to_order oid item db = .ok (it', db') →
      (∃ l, get_order_items oid db' = .ok l ∧ it' ∈ l) ∧
      (∀ oid' l', oid' ≠ oid → get_order_items oid' db' = .ok l' →
        it' ∉ l')) := by
  constructor
  · intro h; unfold add_item_to_order; rw [h]
  · intro hc
    unfold add_item_to_order at hc
    cases horder : db.orders.find? (fun o => o.id == some oid) with
    | none => rw [horder] at hc; simp at hc
    | some order =>
      rw [horder] at hc
      have hordid : order.id = some oid := by
        have := List.find?_some horder
        simpa using this
      cases hconf : db.items.any (fun ex =>
          pkConflict (itemPk ex) (itemPk { item with order_id := order.id })) with
      | true => simp [hconf] at hc
      | false =>
        simp only [hconf, Bool.false_eq_true, if_false, Except.ok.injEq,
          Prod.mk.injEq] at hc
        obtain ⟨h1, h2⟩ := hc
        have hitems : db'.items = db.items ++ [it'] := by rw [← h2, ← h1]
        have horders : db'.orders = db.orders := by rw [← h2]
        have hitoid : it'.order_id = some oid := by rw [← h1, hordid]
        constructor
        · refine ⟨orderItems db' order, ?_, ?_⟩
          · unfold get_order_items
            rw [horders, horder]
          · unfold orderItems
            refine List.mem_filter.mpr ⟨?_, ?_⟩
            · rw [hitems]
              exact List.mem_append_right _ (List.mem_singleton.mpr rfl)
            · rw [hordid, hitoid]; simp
        · intro oid' l' hne heq hmem
          unfold get_order_items at heq
          cases hfind : db'.orders.find? (fun o => o.id == some oid') with
          | none => rw [hfind] at heq; simp at heq
          | some o' =>
            rw [hfind] at heq
            simp only [Except.ok.injEq] at heq
            have ho'id : o'.id = some oid' := by
              have := List.find?_some hfind
              simpa using this
            rw [← heq] at hmem
            unfold orderItems at hmem
            have hpred := (List.mem_filter.mp hmem).2
            rw [ho'id, hitoid] at hpred
            simp at hpred
            exact hne (by omega)

/-- Witness for C4: adding `strayItem` to order 1 of the populated store;
the stored item is in order 1's list and not in order 2's list. -/
theorem C4_add_item_scoped_witness :
    (∃ l, get_order_items 1
        { storeDB with items := storeDB.items ++
            [{ strayItem with order_id := some 1 }] } = .ok l ∧
      ({ strayItem with order_id := some 1 } : OrderItem) ∈ l) ∧
    (∀ oid' l', oid' ≠ 1 → get_order_items oid'
        { storeDB with items := storeDB.items ++
            [{ strayItem with order_id := some 1 }] } = .ok l' →
      ({ strayItem with order_id := some 1 } : OrderItem) ∉ l') :=
  (C4_add_item_scoped storeDB 1 strayItem
    { strayItem with order_id := some 1 }
    { storeDB with items := storeDB.items ++
        [{ strayItem with order_id := some 1 }] }).2 (by rfl)

/-- C5: a successful `POST /orders/{order_id}/items/` leaves the orders
table — and the product and customer tables — exactly as they were: the
aggregate quantity computed in the handler is assigned to
`order.total_quantity`, which is not a column of `Order`, so no Order row
(in particular no `total_amount`) changes. -/
theorem C5_add_item_preserves_order_row (db : DB) (oid : Int)
    (item it' : OrderItem) (db' : DB)
    (hc : add_item_to_order oid item db = .ok (it', db')) :
    db'.orders = db.orders ∧ db'.products = db.products ∧
      db'.customers = db.customers := by
  unfold add_item_to_order at hc
  cases horder : db.orders.find? (fun o => o.id == some oid) with
  | none => rw [horder] at hc; simp at hc
  | some order =>
    rw [horder] at hc
    cases hconf : db.items.any (fun ex =>
        pkConflict (itemPk ex) (itemPk { item with order_id := order.id })) with
    | true => simp [hconf] at hc
    | false =>
      simp only [hconf, Bool.false_eq_true, if_false, Except.ok.injEq,
        Prod.mk.injEq] at hc
      obtain ⟨h1, h2⟩ := hc
      exact ⟨by rw [← h2], by rw [← h2], by rw [← h2]⟩

/-- Witness for C5: adding `strayItem` to order 1 of the populated store
leaves the orders, products and customers tables unchanged. -/
theorem C5_add_item_preserves_order_row_witness :
    ({ storeDB with items := storeDB.items ++
        [{ strayItem with order_id := some 1 }] } : DB).orders =
      storeDB.orders ∧
    ({ storeDB with items := storeDB.items ++
        [{ strayItem with order_id := some 1 }] } : DB).products =
      storeDB.products ∧
    ({ storeDB with items := storeDB.items ++
        [{ strayItem with order_id := some 1 }] } : DB).customers =
      storeDB.customers :=
  C5_add_item_preserves_order_row storeDB 1 strayItem
    { strayItem with order_id := some 1 }
    { storeDB with items := storeDB.items ++
        [{ strayItem with order_id := some 1 }] } (by rfl)

/-- C6: `DELETE /orders/{order_id}/items/{item_id}` is 404 "Order not
found" when the order is absent and 404 "Order item not found" when no
item matches the id scoped to that order; otherwise it removes the stored
item, returns it, and (the orderitem table keeping its composite primary
key `(id, order_id, product_id)` duplicate-free) the item no longer
appears in a subsequent `GET /orders/{order_id}/items/`. -/
theorem C6_delete_item (db : DB) (oid iid : Int) :
    (db.orders.find? (fun o => o.id == some oid) = none →
      delete_order_item oid iid db =
        .error (.http 404 "Order not found")) ∧
    (∀ o, db.orders.find? (fun o => o.id == some oid) = some o →
      db.items.find? (itemMatches oid iid) = none →
      delete_order_item oid iid db =
        .error (.http 404 "Order item not found")) ∧
    (∀ o it, db.orders.find? (fun o => o.id == some oid) = some o →
      db.items.find? (itemMatches oid iid) = some it →
      db.items.Pairwise (fun a b => itemPk a ≠ itemPk b) →
      delete_order_item oid iid db =
        .ok (it, { db with items := removeFirst (itemMatches oid iid) db.items }) ∧
      ∀ l, get_order_items oid
          { db with items := removeFirst (itemMatches oid iid) db.items } =
          .ok l → it ∉ l) := by
  refine ⟨?_, ?_, ?_⟩
  · intro h; unfold delete_order_item; rw [h]
  · intro o ho hit; unfold delete_order_item; rw [ho, hit]
  · intro o it ho hit hpw
    constructor
    · unfold delete_order_item; rw [ho, hit]
    · intro l heq hmem
      unfold get_order_items at heq
      rw [show ({ db with items := removeFirst (itemMatches oid iid) db.items } : DB).orders = db.orders from rfl, ho] at heq
      simp only [Except.ok.injEq] at heq
      rw [← heq] at hmem
      unfold orderItems at hmem
      have hin := (List.mem_filter.mp hmem).1
      exact not_mem_removeFirst itemPk (itemMatches oid iid) db.items it
        hit hpw hin

/-- Witness for C6: deleting item 1 from order 1 of the populated store
returns the stored item, and item 1 is gone from order 1's item list. -/
theorem C6_delete_item_witness :
    delete_order_item 1 1 storeDB =
      .ok (item1, { storeDB with items := removeFirst (itemMatches 1 1) storeDB.items }) ∧
    ∀ l, get_order_items 1
        { storeDB with items := removeFirst (itemMatches 1 1) storeDB.items } =
        .ok l → item1 ∉ l :=
  (C6_delete_item storeDB 1 1).2.2 order1 item1 (by rfl) (by rfl)
    (by simp [storeDB, item1])

/-- C7: `GET /products/` with the default `skip = 0`, `limit = 10` returns
the first ten rows of the product table in insertion order: the empty
sequence on an empty table, and exactly the first ten rows when the table
has more than ten. -/
theorem C7_products_default_page (db : DB) :
    get_products 0 10 db = db.products.take 10 ∧
    (db.products = [] → get_products 0 10 db = []) ∧
    (10 < db.products.length →
      get_products 0 10 db = db.products.take 10 ∧
      (get_products 0 10 db).length = 10) := by
  refine ⟨rfl, ?_, ?_⟩
  · intro h; unfold get_products; rw [h]; rfl
  · intro h
    refine ⟨rfl, ?_⟩
    unfold get_products
    simp only [List.drop_zero, List.length_take]
    omega

/-- Witness for C7 on the empty table and on a table of eleven rows. -/
theorem C7_products_default_page_witness :
    get_products 0 10 ({} : DB) = [] ∧
    get_products 0 10 { products := List.replicate 11 prod1 } =
      (List.replicate 11 prod1).take 10 ∧
    (get_products 0 10 { products := List.replicate 11 prod1 }).length = 10 := by
  have h1 := (C7_products_default_page ({} : DB)).2.1 rfl
  have h2 := (C7_products_default_page
    { products := List.replicate 11 prod1 }).2.2 (by simp)
  exact ⟨h1, h2.1, h2.2⟩

/-- C8: `GET /customers/{customer_id}/orders/` is 404 "Customer not
found" when the customer is absent; when present it returns exactly the
orders whose `customer_id` is that customer's id; and immediately after a
successful `POST /customers/` that assigned an id referenced by no
existing order, it returns the empty list. -/
theorem C8_customer_orders (db : DB) (cid : Int) (cust : Customer) :
    (db.customers.find? (fun c => c.id == some cid) = none →
      get_customer_orders cid db =
        .error (.http 404 "Customer not found")) ∧
    (∀ c, db.customers.find? (fun c => c.id == some cid) = some c →
      get_customer_orders cid db =
        .ok (db.orders.filter (fun o => o.customer_id == some cid))) ∧
    (∀ stored db' i, create_customer cust db = .ok (stored, db') →
      stored.id = some i →
      (∀ o ∈ db.orders, o.customer_id ≠ some i) →
      get_customer_orders i db' = .ok []) := by
  refine ⟨?_, ?_, ?_⟩
  · intro h; unfold get_customer_orders; rw [h]
  · intro c h
    have hcid : c.id = some cid := by simpa using List.find?_some h
    have he : get_customer_orders cid db = .ok (customerOrders db c) := by
      unfold get_customer_orders; rw [h]
    rw [he]
    simp only [Except.ok.injEq]
    unfold customerOrders
    rw [hcid]
    simp
  · intro stored db' i hc hi hno
    unfold create_customer at hc
    have key : db'.customers = db.customers ++ [stored] ∧
        db'.orders = db.orders := by
      cases hcid : cust.id with
      | some j =>
        rw [hcid] at hc
        cases hconf : db.customers.any (fun c => c.id == some j) with
        | true => simp [hconf] at hc
        | false =>
          simp only [hconf, Bool.false_eq_true, if_false, Except.ok.injEq,
            Prod.mk.injEq] at hc
          obtain ⟨h1, h2⟩ := hc
          subst h1
          exact ⟨by rw [← h2], by rw [← h2]⟩
      | none =>
        rw [hcid] at hc
        simp only [Except.ok.injEq, Prod.mk.injEq] at hc
        obtain ⟨h1, h2⟩ := hc
        exact ⟨by rw [← h2, ← h1], by rw [← h2]⟩
    have hmem : stored ∈ db'.customers := by
      rw [key.1]
      exact List.mem_append_right _ (List.mem_singleton.mpr rfl)
    have hsome : (db'.customers.find? (fun c => c.id == some i)).isSome :=
      List.find?_isSome.mpr ⟨stored, hmem, by simp [hi]⟩
    obtain ⟨c₀, hc₀⟩ := Option.isSome_iff_exists.mp hsome
    have hc₀id : c₀.id = some i := by simpa using List.find?_some hc₀
    have he : get_customer_orders i db' = .ok (customerOrders db' c₀) := by
      unfold get_customer_orders; rw [hc₀]
    rw [he]
    simp only [Except.ok.injEq]
    unfold customerOrders
    rw [hc₀id, key.2]
    rw [List.filter_eq_nil_iff]
    intro o ho
    simp only [Option.isSome_some, Bool.true_and]
    exact fun hb => hno o ho (by simpa using hb)

/-- Witness for C8: the spec's example — creating a customer on the empty
store and immediately listing its orders yields the empty list; and on the
populated store, customer 1's order list is exactly its two orders. -/
theorem C8_customer_orders_witness :
    get_customer_orders 1
      { customers := [{ freshCustomer with id := some 1 }] } = .ok [] ∧
    get_customer_orders 1 storeDB =
      .ok (storeDB.orders.filter (fun o => o.customer_id == some 1)) := by
  have h1 := (C8_customer_orders ({} : DB) 1 freshCustomer).2.2
    { freshCustomer with id := some 1 }
    { customers := [{ freshCustomer with id := some 1 }] } 1
    (by rfl) rfl (by intro o ho; cases ho)
  have h2 := (C8_customer_orders storeDB 1 freshCustomer).2.1
    cust1 (by rfl)
  exact ⟨h1, h2⟩

/-- C9: `PUT /orders/{order_id}/items/{item_id}` is 404 "Order not found"
when the order is absent and 404 "Order item not found" when no item
matches the id scoped to that order; when both exist it overwrites the
stored item's `quantity`, `price_per_unit` and `total_price` with the
payload's values while keeping its `id`, `order_id` and `product_id`. -/
theorem C9_update_item_fields (db : DB) (oid iid : Int) (upd : OrderItem) :
    (db.orders.find? (fun o => o.id == some oid) = none →
      update_order_item oid iid upd db =
        .error (.http 404 "Order not found")) ∧
    (∀ o, db.orders.find? (fun o => o.id == some oid) = some o →
      db.items.find? (itemMatches oid iid) = none →
      update_order_item oid iid upd db =
        .error (.http 404 "Order item not found")) ∧
    (∀ o it, db.orders.find? (fun o => o.id == some oid) = some o →
      db.items.find? (itemMatches oid iid) = some it →
      update_order_item oid iid upd db =
        .ok (applyItemUpdate upd it,
          { db with items := itemTableAfterUpdate oid iid upd db }) ∧
      (applyItemUpdate upd it).quantity = upd.quantity ∧
      (applyItemUpdate upd it).price_per_unit = upd.price_per_unit ∧
      (applyItemUpdate upd it).total_price = upd.total_price ∧
      (applyItemUpdate upd it).id = it.id ∧
      (applyItemUpdate upd it).order_id = it.order_id ∧
      (applyItemUpdate upd it).product_id = it.product_id) := by
  refine ⟨?_, ?_, ?_⟩
  · intro h; unfold update_order_item; rw [h]
  · intro o ho hit; unfold update_order_item; rw [ho, hit]
  · intro o it ho hit
    refine ⟨?_, rfl, rfl, rfl, rfl, rfl, rfl⟩
    unfold update_order_item
    rw [ho, hit]
    rfl

/-- Witness for C9: updating item 1 of order 1 with the `strayItem`
payload overwrites the three value columns and keeps the keys. -/
theorem C9_update_item_fields_witness :
    update_order_item 1 1 strayItem storeDB =
      .ok (applyItemUpdate strayItem item1,
        { storeDB with items := itemTableAfterUpdate 1 1 strayItem storeDB }) ∧
    (applyItemUpdate strayItem item1).quantity = strayItem.quantity ∧
    (applyItemUpdate strayItem item1).price_per_unit =
      strayItem.price_per_unit ∧
    (applyItemUpdate strayItem item1).total_price = strayItem.total_price ∧
    (applyItemUpdate strayItem item1).id = item1.id ∧
    (applyItemUpdate strayItem item1).order_id = item1.order_id ∧
    (applyItemUpdate strayItem item1).product_id = item1.product_id :=
  (C9_update_item_fields storeDB 1 1 strayItem).2.2 order1 item1
    (by rfl) (by rfl)

/-- C10: on a successful `POST /orders/{order_id}/items/` the stored and
returned item carries the path's `order_id`, whatever `order_id` the
payload carried, and it is exactly the row appended to the orderitem
table. -/
theorem C10_path_overrides_payload (db : DB) (oid : Int)
    (item it' : OrderItem) (db' : DB)
    (hc : add_item_to_order oid item db = .ok (it', db')) :
    it'.order_id = some oid ∧ db'.items = db.items ++ [it'] ∧
      it'.quantity = item.quantity ∧ it'.id = item.id ∧
      it'.product_id = item.product_id := by
  unfold add_item_to_order at hc
  cases horder : db.orders.find? (fun o => o.id == some oid) with
  | none => rw [horder] at hc; simp at hc
  | some order =>
    rw [horder] at hc
    have hordid : order.id = some oid := by
      simpa using List.find?_some horder
    cases hconf : db.items.any (fun ex =>
        pkConflict (itemPk ex) (itemPk { item with order_id := order.id })) with
    | true => simp [hconf] at hc
    | false =>
      simp only [hconf, Bool.false_eq_true, if_false, Except.ok.injEq,
        Prod.mk.injEq] at hc
      obtain ⟨h1, h2⟩ := hc
      refine ⟨by rw [← h1, hordid], by rw [← h2, ← h1], by rw [← h1],
        by rw [← h1], by rw [← h1]⟩

/-- Witness for C10: the payload `strayItem` carries `order_id = 999`, yet
the item stored under order 1 carries `order_id = 1`. -/
theorem C10_path_overrides_payload_witness :
    ({ strayItem with order_id := some 1 } : OrderItem).order_id =
      some 1 ∧
    ({ storeDB with items := storeDB.items ++
        [{ strayItem with order_id := some 1 }] } : DB).items =
      storeDB.items ++ [{ strayItem with order_id := some 1 }] ∧
    ({ strayItem with order_id := some 1 } : OrderItem).quantity =
      strayItem.quantity ∧
    ({ strayItem with order_id := some 1 } : OrderItem).id = strayItem.id ∧
    ({ strayItem with order_id := some 1 } : OrderItem).product_id =
      strayItem.product_id :=
  C10_path_overrides_payload storeDB 1 strayItem
    { strayItem with order_id := some 1 }
    { storeDB with items := storeDB.items ++
        [{ strayItem with order_id := some 1 }] } (by rfl)

end OrderApi
